import Mathlib

/-!
Shallow embedding of src/pelix/remote/dispatcher.py: the remote-services
Dispatcher (export / update / unexport of service endpoints and listener
notification) and the RegistryServlet (wire-record property transform,
endpoint registration, POST handling).

Modelling conventions
- Python dictionaries become insertion-ordered association lists with
  replace-in-place assignment; Python sets of UIDs become duplicate-free
  lists.
- Exceptions become an explicit error component of each result; state
  mutations performed before a raise persist, as in Python.
- Exporters and listeners are external collaborators, modelled as records
  of response functions and failure flags.  Every call made to one of them
  (export_service, update_export, unexport_service, endpoints_added,
  endpoint_updated, endpoint_removed) and every log line is recorded in an
  observation log, so theorems can speak about which collaborator was
  invoked, how often, and with what payload.
-/

namespace PelixRemote

/-- Property values: the JSON-serializable values the dispatcher handles. -/
inductive Value where
  | vstr (s : String)
  | vint (n : Int)
  | vbool (b : Bool)
  | varr (l : List String)
deriving DecidableEq, Repr

/-- Python truthiness of a property value. -/
def truthy : Value → Bool
  | .vstr s => s != ""
  | .vint n => n != 0
  | .vbool b => b
  | .varr l => !l.isEmpty

/-- Python str() rendering, used by string formatting of the fallback name. -/
def strOfValue : Value → String
  | .vstr s => s
  | .vint n => toString n
  | .vbool b => if b then "True" else "False"
  | .varr _ => "[...]"

/-- A property dictionary: an insertion-ordered association list. -/
abbrev Props := List (String × Value)

/-- Dictionary lookup: first binding of the key, as Python dict access. -/
def alget {κ α : Type} [DecidableEq κ] : List (κ × α) → κ → Option α
  | [], _ => none
  | (k, v) :: t, key => if key = k then some v else alget t key

/-- Dictionary assignment: replace the binding in place, else append. -/
def alset {κ α : Type} [DecidableEq κ] : List (κ × α) → κ → α → List (κ × α)
  | [], key, v => [(key, v)]
  | (k, w) :: t, key, v =>
    if key = k then (key, v) :: t else (k, w) :: alset t key v

/-- Dictionary deletion (Python del / pop of an existing key). -/
def aldel {κ α : Type} [DecidableEq κ] : List (κ × α) → κ → List (κ × α)
  | [], _ => []
  | (k, w) :: t, key => if key = k then aldel t key else (k, w) :: aldel t key

/-- Python dict.setdefault: keep an existing binding, else append the default. -/
def alsetdefault {κ α : Type} [DecidableEq κ] (m : List (κ × α)) (key : κ)
    (v : α) : List (κ × α) :=
  match alget m key with
  | some _ => m
  | none => m ++ [(key, v)]

/-- Python set.add on a duplicate-free list. -/
def sadd (s : List String) (u : String) : List String :=
  if u ∈ s then s else s ++ [u]

/-!
Property-key constants.  Modelled from the spec: the module pelix/remote
(constants PROP_EXPORTED_CONFIGS and friends) is not under src/; the key
names below follow the wording of the spec (§6 and the transform rules).
Only their mutual distinctness matters to the development.
-/

def PROP_EXPORTED_CONFIGS : String := "exported.configs"

def PROP_EXPORTED_INTERFACES : String := "exported.interfaces"

def PROP_IMPORTED : String := "imported"

def PROP_IMPORTED_CONFIGS : String := "imported.configs"

def PROP_FRAMEWORK_UID : String := "framework.uid"

def PROP_ENDPOINT_NAME : String := "endpoint.name"

def SERVICE_ID : String := "service.id"

/-- A service reference: its framework-assigned id and its properties. -/
structure SvcRef where
  sid : Int
  props : Props
deriving DecidableEq, Repr

/-- svc_ref.get_properties(): the framework keeps SERVICE_ID in the map. -/
def SvcRef.get_properties (r : SvcRef) : Props :=
  alset r.props SERVICE_ID (.vint r.sid)

/-- svc_ref.get_property(key): None when the key is absent. -/
def SvcRef.get_property (r : SvcRef) (key : String) : Option Value :=
  alget r.get_properties key

/-- An export endpoint bean (pelix.remote.beans.ExportEndpoint fields used
by the dispatcher). -/
structure Endpoint where
  uid : String
  name : String
  configurations : List String
  specifications : List String
  properties : Props
deriving DecidableEq, Repr

/-- Outcome of exporter.export_service: returns an endpoint, returns None
(export refused), or raises NameError / BundleException. -/
inductive ExportOutcome where
  | created (ep : Endpoint)
  | declined
  | raised
deriving Repr

/-- Outcome of exporter.update_export: normal return or NameError. -/
inductive UpdResult where
  | ok
  | nameError
deriving DecidableEq, Repr

/-- An export provider (external collaborator).  Its reactions are given as
functions of the arguments the dispatcher passes to it. -/
structure Exporter where
  eid : Nat
  handles : Value → Bool
  export_service : Int → String → ExportOutcome
  update_export : Endpoint → String → Props → UpdResult

/-- An endpoint listener (external collaborator); each flag says whether the
corresponding callback raises an exception when invoked. -/
structure Listener where
  lid : Nat
  fails_added : Bool
  fails_updated : Bool
  fails_removed : Bool
deriving DecidableEq, Repr

/-- Observation log entries: logger output and collaborator invocations. -/
inductive LogEntry where
  | warn (msg : String)
  | errlog (msg : String)
  | exportCall (eid : Nat) (sid : Int) (name : String)
  | createdEp (ep : Endpoint)
  | updateCall (eid : Nat) (uid : String) (newName : String)
  | unexportCall (eid : Nat) (uid : String)
  | addedCall (lid : Nat) (eps : List Endpoint)
  | updatedCall (lid : Nat) (ep : Endpoint) (old : Props)
  | removedCall (lid : Nat) (ep : Endpoint) (old : Option Props)
deriving DecidableEq, Repr

/-- Python exceptions that can escape the modelled code. -/
inductive PyErr where
  | listenerExc (lid : Nat)
  | attrError
  | valueError
deriving DecidableEq, Repr

/-- Dispatcher state: the injected collaborators and the three endpoint
maps plus the service-to-UIDs record map. -/
structure DState where
  exporters : List Exporter
  listeners : List Listener
  fw_uid : Option String
  endpoints : List (String × Endpoint)
  uid_exporter : List (String × Exporter)
  service_uids : List (Int × List String)

/-- Result of a dispatcher operation: post state, observation log, and the
exception that escaped the operation, if any. -/
structure DRes where
  st : DState
  log : List LogEntry
  err : Option PyErr

/-- Dispatcher._compute_endpoint_name. -/
def compute_endpoint_name (properties : Props) : String :=
  match alget properties PROP_ENDPOINT_NAME with
  | some v =>
    if truthy v then strOfValue v
    else "service_" ++ strOfValue ((alget properties SERVICE_ID).getD (.vint 0))
  | none => "service_" ++ strOfValue ((alget properties SERVICE_ID).getD (.vint 0))

/-- Exporter selection of __export_service (lines 211-219): all exporters
when the configs property is falsy or the star string, else those whose
handles call answers true. -/
def select_exporters (exporters : List Exporter) (configs : Option Value) :
    List Exporter :=
  match configs with
  | none => exporters
  | some v =>
    if truthy v = false ∨ v = Value.vstr "*" then exporters
    else exporters.filter fun e => e.handles v

/-- The per-exporter loop of __export_service (lines 229-247): each
candidate is asked to export; a None result is skipped, a created endpoint
is stored in all three maps, a raised creation error is logged and skipped.
Returns the post state, the endpoints list built by the loop, and the log. -/
def exportLoop (ref : SvcRef) (name : String) :
    List Exporter → DState → DState × List Endpoint × List LogEntry
  | [], st => (st, [], [])
  | e :: rest, st =>
    match e.export_service ref.sid name with
    | .declined =>
      let r := exportLoop ref name rest st
      (r.1, r.2.1, .exportCall e.eid ref.sid name :: r.2.2)
    | .raised =>
      let r := exportLoop ref name rest st
      (r.1, r.2.1,
        .exportCall e.eid ref.sid name :: .errlog "Error exporting service" :: r.2.2)
    | .created ep =>
      let st1 : DState :=
        { st with
          endpoints := alset st.endpoints ep.uid ep
          uid_exporter := alset st.uid_exporter ep.uid e
          service_uids :=
            alset st.service_uids ref.sid
              (sadd ((alget st.service_uids ref.sid).getD []) ep.uid) }
      let r := exportLoop ref name rest st1
      (r.1, ep :: r.2.1,
        .exportCall e.eid ref.sid name :: .createdEp ep :: r.2.2)

/-- The endpoints_added broadcast of __export_service (lines 254-256): no
try/except, so a raising listener aborts delivery to the remaining ones. -/
def notifyAdded : List Listener → List Endpoint → List LogEntry × Option PyErr
  | [], _ => ([], none)
  | l :: rest, eps =>
    if l.fails_added then ([.addedCall l.lid eps], some (.listenerExc l.lid))
    else
      let r := notifyAdded rest eps
      (.addedCall l.lid eps :: r.1, r.2)

/-- Dispatcher.__export_service. -/
def export_service (st : DState) (ref : SvcRef) : DRes :=
  let st0 : DState :=
    { st with service_uids := alsetdefault st.service_uids ref.sid [] }
  if st0.exporters.isEmpty then ⟨st0, [.warn "No exporters yet."], none⟩
  else
    let configs := ref.get_property PROP_EXPORTED_CONFIGS
    let exporters := select_exporters st0.exporters configs
    if exporters.isEmpty then ⟨st0, [.warn "No exporter for configs"], none⟩
    else
      let name := compute_endpoint_name ref.get_properties
      let r := exportLoop ref name exporters st0
      if r.2.1.isEmpty then
        ⟨r.1, r.2.2 ++ [.warn "No endpoint created"], none⟩
      else
        let n := notifyAdded r.1.listeners r.2.1
        ⟨r.1, r.2.2 ++ n.1, n.2⟩

/-- The endpoint_updated broadcast of __update_service (lines 302-305): no
try/except around the listener calls. -/
def notifyUpdated : List Listener → Endpoint → Props → List LogEntry × Option PyErr
  | [], _, _ => ([], none)
  | l :: rest, ep, old =>
    if l.fails_updated then
      ([.updatedCall l.lid ep old], some (.listenerExc l.lid))
    else
      let r := notifyUpdated rest ep old
      (.updatedCall l.lid ep old :: r.1, r.2)

/-- The endpoint_removed broadcast of the update failure path (lines
296-299): two-argument form, no try/except around the listener calls. -/
def notifyRemovedUpd : List Listener → Endpoint → Props → List LogEntry × Option PyErr
  | [], _, _ => ([], none)
  | l :: rest, ep, old =>
    if l.fails_removed then
      ([.removedCall l.lid ep (some old)], some (.listenerExc l.lid))
    else
      let r := notifyRemovedUpd rest ep old
      (.removedCall l.lid ep (some old) :: r.1, r.2)

/-- The per-UID body of the __update_service loop (lines 271-305).  When
the exporter or the endpoint of the UID is missing, the code logs a warning
and then calls set.retain, a method Python sets do not have, so an
AttributeError is raised and the record is left untouched. -/
def updateOne (ref : SvcRef) (old : Props) (uid : String) (st : DState) : DRes :=
  match alget st.uid_exporter uid, alget st.endpoints uid with
  | some ex, some ep =>
    let new_name := compute_endpoint_name ref.get_properties
    match ex.update_export ep new_name old with
    | .nameError =>
      let n := notifyRemovedUpd st.listeners ep old
      ⟨st,
        .updateCall ex.eid uid new_name ::
          .errlog "Error updating service properties" ::
            .unexportCall ex.eid uid :: n.1,
        n.2⟩
    | .ok =>
      let n := notifyUpdated st.listeners ep old
      ⟨st, .updateCall ex.eid uid new_name :: n.1, n.2⟩
  | _, _ =>
    ⟨st, [.warn ("No exporter for endpoint " ++ uid)], some .attrError⟩

/-- The UID loop of __update_service: a raise aborts the remaining UIDs. -/
def updateLoop (ref : SvcRef) (old : Props) :
    List String → DState → DRes
  | [], st => ⟨st, [], none⟩
  | uid :: rest, st =>
    let r := updateOne ref old uid st
    match r.err with
    | some e => ⟨r.st, r.log, some e⟩
    | none =>
      let r2 := updateLoop ref old rest r.st
      ⟨r2.st, r.log ++ r2.log, r2.err⟩

/-- Dispatcher.__update_service. -/
def update_service (st : DState) (ref : SvcRef) (old : Props) : DRes :=
  match alget st.service_uids ref.sid with
  | none => ⟨st, [], none⟩
  | some uids => updateLoop ref old uids st

/-- The endpoint_removed broadcast of __unexport_service (lines 337-343):
one-argument form, with a try/except isolating each listener failure. -/
def notifyRemovedSafe : List Listener → Endpoint → List LogEntry
  | [], _ => []
  | l :: rest, ep =>
    (if l.fails_removed then
      [.removedCall l.lid ep none, .errlog "Error notifying listener"]
    else [.removedCall l.lid ep none]) ++ notifyRemovedSafe rest ep

/-- The per-UID body of the __unexport_service loop (lines 322-343): pop
the endpoint, pop the exporter (a missing entry is logged and skipped),
unexport through the exporter and broadcast the removal. -/
def unexportOne (uid : String) (st : DState) : DState × List LogEntry :=
  match alget st.endpoints uid with
  | none => (st, [.warn ("Trying to remove a lost endpoint " ++ uid)])
  | some ep =>
    let st1 : DState := { st with endpoints := aldel st.endpoints uid }
    match alget st1.uid_exporter uid with
    | none => (st1, [.warn ("Trying to remove a lost endpoint " ++ uid)])
    | some ex =>
      let st2 : DState := { st1 with uid_exporter := aldel st1.uid_exporter uid }
      (st2, .unexportCall ex.eid uid :: notifyRemovedSafe st2.listeners ep)

/-- The UID loop of __unexport_service. -/
def unexportLoop : List String → DState → DState × List LogEntry
  | [], st => (st, [])
  | uid :: rest, st =>
    let r := unexportOne uid st
    let r2 := unexportLoop rest r.1
    (r2.1, r.2 ++ r2.2)

/-- Dispatcher.__unexport_service: pop the whole UID set of the service,
then process each UID; no exception can escape. -/
def unexport_service (st : DState) (ref : SvcRef) : DRes :=
  match alget st.service_uids ref.sid with
  | none => ⟨st, [], none⟩
  | some uids =>
    let st1 : DState := { st with service_uids := aldel st.service_uids ref.sid }
    let r := unexportLoop uids st1
    ⟨r.1, r.2, none⟩

/-- Service event kinds of pelix.framework.ServiceEvent. -/
inductive SvcEventKind where
  | registered
  | modified
  | modified_endmatch
  | unregistering
deriving DecidableEq, Repr

/-- Dispatcher.service_changed: the dispatch table over event kinds. -/
def service_changed (st : DState) (kind : SvcEventKind) (ref : SvcRef)
    (old : Props) : DRes :=
  match kind with
  | .registered => export_service st ref
  | .modified =>
    if (alget st.service_uids ref.sid).isNone then export_service st ref
    else update_service st ref old
  | .unregistering | .modified_endmatch =>
    if (alget st.service_uids ref.sid).isSome then unexport_service st ref
    else ⟨st, [], none⟩

/-- Dispatcher._bind_listener: a newly bound listener immediately receives
one endpoints_added call with all current endpoints when the map is not
empty; a failure of that listener is caught and logged. -/
def bind_listener (st : DState) (l : Listener) : DState × List LogEntry :=
  let log :=
    if st.endpoints.isEmpty then []
    else if l.fails_added then
      [.addedCall l.lid (st.endpoints.map Prod.snd),
       .errlog "Error notifying newly bound listener"]
    else [.addedCall l.lid (st.endpoints.map Prod.snd)]
  ({ st with listeners := st.listeners ++ [l] }, log)

/-!
RegistryServlet: the discovery wire protocol (dispatcher.py lines 494-772).
-/

/-- A wire record received over HTTP (one element of a POSTed JSON array). -/
structure EndpointDict where
  sender : String
  uid : String
  configurations : List String
  name : String
  specifications : List String
  properties : Props
deriving DecidableEq, Repr

/-- An import endpoint bean.  Modelled from the spec: the class
pelix.remote.beans.ImportEndpoint is not under src/; per the spec it
carries the endpoint attributes, the originating framework and the
server address of the announcing host. -/
structure ImportEndpoint where
  uid : String
  framework : String
  configurations : List String
  name : String
  specifications : List String
  properties : Props
  server : Option String
deriving DecidableEq, Repr

/-- RegistryServlet.filter_properties: the export-to-import transform. -/
def filter_properties (framework_uid : String) (properties : Props) : Props :=
  let p1 := alset properties PROP_IMPORTED (.vbool true)
  let p2 :=
    match alget p1 PROP_EXPORTED_CONFIGS with
    | some v => alset p1 PROP_IMPORTED_CONFIGS v
    | none => p1
  let p3 := aldel (aldel p2 PROP_EXPORTED_CONFIGS) PROP_EXPORTED_INTERFACES
  alset p3 PROP_FRAMEWORK_UID (.vstr framework_uid)

/-- RegistryServlet.register_endpoint: build the ImportEndpoint from the
wire record, tag the sender host, and add it to the import registry
(modelled as a list the add call appends to). -/
def register_endpoint (registry : List ImportEndpoint) (host_address : String)
    (endpoint_dict : EndpointDict) : List ImportEndpoint :=
  let framework := endpoint_dict.sender
  let properties := filter_properties framework endpoint_dict.properties
  let endpoint : ImportEndpoint :=
    { uid := endpoint_dict.uid
      framework := framework
      configurations := endpoint_dict.configurations
      name := endpoint_dict.name
      specifications := endpoint_dict.specifications
      properties := properties
      server := some host_address }
  registry ++ [endpoint]

/-- The raw body of a POST request, abstracted to the JSON shapes relevant
here: a genuinely empty or missing body, the null literal, or an array of
wire records. -/
inductive RawBody where
  | empty
  | jnull
  | jarr (records : List EndpointDict)
deriving DecidableEq, Repr

/-- Python json.loads restricted to those body shapes: the empty string
raises ValueError, null parses to None, an array parses to the records. -/
def json_loads : RawBody → Except PyErr (Option (List EndpointDict))
  | .empty => .error .valueError
  | .jnull => .ok none
  | .jarr records => .ok (some records)

/-- A response emitted through response.send_content. -/
structure HttpSent where
  code : Nat
  body : String
  ctype : String
deriving DecidableEq, Repr

/-- Python str.split with an explicit separator, over the character list. -/
def splitChars (sep : Char) : List Char → List (List Char)
  | [] => [[]]
  | c :: rest =>
    let r := splitChars sep rest
    if c = sep then [] :: r
    else
      match r with
      | [] => [[c]]
      | g :: gs => (c :: g) :: gs

/-- Python path.split(sep) as used on the request path. -/
def pySplit (s : String) (sep : Char) : List String :=
  (splitChars sep s.data).map fun cs => String.mk cs

/-- RegistryServlet.do_POST: reject paths not ending in endpoints, parse
the body (a ValueError from the parse escapes the handler uncaught),
register each received record, and answer 200 OK. -/
def do_POST (registry : List ImportEndpoint) (client_address : String)
    (path : String) (body : RawBody) :
    Except PyErr (List ImportEndpoint × HttpSent) :=
  if (pySplit path '/').getLastD "" ≠ "endpoints" then
    .ok (registry, ⟨404, "Unhandled path", "text/plain"⟩)
  else
    match json_loads body with
    | .error e => .error e
    | .ok none => .ok (registry, ⟨200, "OK", "text/plain"⟩)
    | .ok (some records) =>
      .ok
        (records.foldl (fun r d => register_endpoint r client_address d) registry,
         ⟨200, "OK", "text/plain"⟩)

/-!
Log projections: the observable calls of each listener capability.
-/

/-- All endpoints_added invocations in a log, in order. -/
def addedCalls (log : List LogEntry) : List (Nat × List Endpoint) :=
  log.filterMap fun e =>
    match e with
    | .addedCall lid eps => some (lid, eps)
    | _ => none

/-- All endpoint_updated invocations in a log, in order. -/
def updatedCalls (log : List LogEntry) : List (Nat × Endpoint × Props) :=
  log.filterMap fun e =>
    match e with
    | .updatedCall lid ep old => some (lid, ep, old)
    | _ => none

/-- All endpoint_removed invocations in a log, in order. -/
def removedCalls (log : List LogEntry) : List (Nat × Endpoint × Option Props) :=
  log.filterMap fun e =>
    match e with
    | .removedCall lid ep old => some (lid, ep, old)
    | _ => none

/-- The exporters asked to export in a log, in order. -/
def exportCalls (log : List LogEntry) : List Nat :=
  log.filterMap fun e =>
    match e with
    | .exportCall eid _ _ => some eid
    | _ => none

/-- The endpoints created during an export pass, in order. -/
def createdEps (log : List LogEntry) : List Endpoint :=
  log.filterMap fun e =>
    match e with
    | .createdEp ep => some ep
    | _ => none

/-!
Helper lemmas about the log projections.
-/

@[simp] theorem addedCalls_nil : addedCalls [] = [] := rfl

@[simp] theorem updatedCalls_nil : updatedCalls [] = [] := rfl

@[simp] theorem removedCalls_nil : removedCalls [] = [] := rfl

@[simp] theorem exportCalls_nil : exportCalls [] = [] := rfl

@[simp] theorem createdEps_nil : createdEps [] = [] := rfl

@[simp] theorem addedCalls_cons (e : LogEntry) (log : List LogEntry) :
    addedCalls (e :: log) =
      (match e with
        | .addedCall lid eps => [(lid, eps)]
        | _ => []) ++ addedCalls log := by
  simp only [addedCalls, List.filterMap_cons]
  cases e <;> simp

@[simp] theorem updatedCalls_cons (e : LogEntry) (log : List LogEntry) :
    updatedCalls (e :: log) =
      (match e with
        | .updatedCall lid ep old => [(lid, ep, old)]
        | _ => []) ++ updatedCalls log := by
  simp only [updatedCalls, List.filterMap_cons]
  cases e <;> simp

@[simp] theorem removedCalls_cons (e : LogEntry) (log : List LogEntry) :
    removedCalls (e :: log) =
      (match e with
        | .removedCall lid ep old => [(lid, ep, old)]
        | _ => []) ++ removedCalls log := by
  simp only [removedCalls, List.filterMap_cons]
  cases e <;> simp

@[simp] theorem exportCalls_cons (e : LogEntry) (log : List LogEntry) :
    exportCalls (e :: log) =
      (match e with
        | .exportCall eid _ _ => [eid]
        | _ => []) ++ exportCalls log := by
  simp only [exportCalls, List.filterMap_cons]
  cases e <;> simp

@[simp] theorem createdEps_cons (e : LogEntry) (log : List LogEntry) :
    createdEps (e :: log) =
      (match e with
        | .createdEp ep => [ep]
        | _ => []) ++ createdEps log := by
  simp only [createdEps, List.filterMap_cons]
  cases e <;> simp

@[simp] theorem addedCalls_append (a b : List LogEntry) :
    addedCalls (a ++ b) = addedCalls a ++ addedCalls b := by
  simp [addedCalls]

@[simp] theorem updatedCalls_append (a b : List LogEntry) :
    updatedCalls (a ++ b) = updatedCalls a ++ updatedCalls b := by
  simp [updatedCalls]

@[simp] theorem removedCalls_append (a b : List LogEntry) :
    removedCalls (a ++ b) = removedCalls a ++ removedCalls b := by
  simp [removedCalls]

@[simp] theorem exportCalls_append (a b : List LogEntry) :
    exportCalls (a ++ b) = exportCalls a ++ exportCalls b := by
  simp [exportCalls]

@[simp] theorem createdEps_append (a b : List LogEntry) :
    createdEps (a ++ b) = createdEps a ++ createdEps b := by
  simp [createdEps]

/-!
Helper lemmas about the dictionary model.
-/

theorem alget_alset_self {κ α : Type} [DecidableEq κ] (m : List (κ × α))
    (k : κ) (v : α) : alget (alset m k v) k = some v := by
  induction m with
  | nil => simp [alget, alset]
  | cons p t ih =>
    by_cases h : k = p.1
    · simp [alset, h, alget]
    · simp [alset, h, alget, ih]

theorem alget_alset_ne {κ α : Type} [DecidableEq κ] (m : List (κ × α))
    (k k' : κ) (v : α) (h : k' ≠ k) :
    alget (alset m k v) k' = alget m k' := by
  induction m with
  | nil => simp [alget, alset, h]
  | cons p t ih =>
    by_cases hk : k = p.1
    · subst hk
      simp [alset, alget, h]
    · by_cases hk' : k' = p.1
      · simp [alset, hk, alget, hk']
      · simp [alset, hk, alget, hk', ih]

theorem alget_aldel_self {κ α : Type} [DecidableEq κ] (m : List (κ × α))
    (k : κ) : alget (aldel m k) k = none := by
  induction m with
  | nil => rfl
  | cons p t ih =>
    by_cases h : k = p.1
    · subst h
      simp [aldel, ih]
    · simp [aldel, h, alget, ih]

theorem alget_aldel_ne {κ α : Type} [DecidableEq κ] (m : List (κ × α))
    (k k' : κ) (h : k' ≠ k) : alget (aldel m k) k' = alget m k' := by
  induction m with
  | nil => rfl
  | cons p t ih =>
    by_cases hk : k = p.1
    · subst hk
      simp [aldel, alget, h, ih]
    · by_cases hk' : k' = p.1
      · simp [aldel, hk, alget, hk']
      · simp [aldel, hk, alget, hk', ih]

theorem alget_append {κ α : Type} [DecidableEq κ] (a b : List (κ × α))
    (k : κ) :
    alget (a ++ b) k = match alget a k with
      | some v => some v
      | none => alget b k := by
  induction a with
  | nil => simp [alget]
  | cons p t ih =>
    by_cases h : k = p.1
    · simp [alget, h]
    · simp [alget, h, ih]

theorem alget_alsetdefault_fresh {κ α : Type} [DecidableEq κ]
    (m : List (κ × α)) (k : κ) (v : α) (h : alget m k = none) :
    alget (alsetdefault m k v) k = some v := by
  simp [alsetdefault, h, alget_append, alget]

theorem alget_alsetdefault_isSome {κ α : Type} [DecidableEq κ]
    (m : List (κ × α)) (k : κ) (v : α) :
    (alget (alsetdefault m k v) k).isSome = true := by
  cases h : alget m k with
  | none => simp [alget_alsetdefault_fresh m k v h]
  | some w => simp [alsetdefault, h]

/-!
Characterizations of the listener broadcasts.
-/

theorem notifyAdded_ok (ls : List Listener) (eps : List Endpoint)
    (h : ∀ l ∈ ls, l.fails_added = false) :
    notifyAdded ls eps = (ls.map fun l => .addedCall l.lid eps, none) := by
  induction ls with
  | nil => rfl
  | cons l rest ih =>
    have hl : l.fails_added = false := h l (by simp)
    have hr := ih fun x hx => h x (by simp [hx])
    simp [notifyAdded, hl, hr]

theorem notifyUpdated_ok (ls : List Listener) (ep : Endpoint) (old : Props)
    (h : ∀ l ∈ ls, l.fails_updated = false) :
    notifyUpdated ls ep old = (ls.map fun l => .updatedCall l.lid ep old, none) := by
  induction ls with
  | nil => rfl
  | cons l rest ih =>
    have hl : l.fails_updated = false := h l (by simp)
    have hr := ih fun x hx => h x (by simp [hx])
    simp [notifyUpdated, hl, hr]

theorem notifyRemovedUpd_ok (ls : List Listener) (ep : Endpoint) (old : Props)
    (h : ∀ l ∈ ls, l.fails_removed = false) :
    notifyRemovedUpd ls ep old =
      (ls.map fun l => .removedCall l.lid ep (some old), none) := by
  induction ls with
  | nil => rfl
  | cons l rest ih =>
    have hl : l.fails_removed = false := h l (by simp)
    have hr := ih fun x hx => h x (by simp [hx])
    simp [notifyRemovedUpd, hl, hr]

theorem removedCalls_notifyRemovedSafe (ls : List Listener) (ep : Endpoint) :
    removedCalls (notifyRemovedSafe ls ep) = ls.map fun l => (l.lid, ep, none) := by
  induction ls with
  | nil => rfl
  | cons l rest ih =>
    by_cases hl : l.fails_removed <;> simp [notifyRemovedSafe, hl, ih]

theorem errlog_notifyRemovedSafe (ls : List Listener) (ep : Endpoint)
    (l : Listener) (hl : l ∈ ls) (hf : l.fails_removed = true) :
    LogEntry.errlog "Error notifying listener" ∈ notifyRemovedSafe ls ep := by
  induction ls with
  | nil => cases hl
  | cons x rest ih =>
    rcases List.mem_cons.mp hl with h | h
    · subst h
      simp [notifyRemovedSafe, hf]
    · by_cases hx : x.fails_removed <;> simp [notifyRemovedSafe, hx, ih h]

/-- Endpoints_added entries produced by a full, failure-free broadcast. -/
theorem addedCalls_map_added (ls : List Listener) (eps : List Endpoint) :
    addedCalls (ls.map fun l => LogEntry.addedCall l.lid eps) =
      ls.map fun l => (l.lid, eps) := by
  induction ls <;> simp [*]

theorem createdEps_map_added (ls : List Listener) (eps : List Endpoint) :
    createdEps (ls.map fun l => LogEntry.addedCall l.lid eps) = [] := by
  induction ls <;> simp [*]

theorem updatedCalls_map_updated (ls : List Listener) (ep : Endpoint)
    (old : Props) :
    updatedCalls (ls.map fun l => LogEntry.updatedCall l.lid ep old) =
      ls.map fun l => (l.lid, ep, old) := by
  induction ls <;> simp [*]

theorem removedCalls_map_updated (ls : List Listener) (ep : Endpoint)
    (old : Props) :
    removedCalls (ls.map fun l => LogEntry.updatedCall l.lid ep old) = [] := by
  induction ls <;> simp [*]

theorem removedCalls_map_removed (ls : List Listener) (ep : Endpoint)
    (old : Props) :
    removedCalls (ls.map fun l => LogEntry.removedCall l.lid ep (some old)) =
      ls.map fun l => (l.lid, ep, some old) := by
  induction ls <;> simp [*]

theorem updatedCalls_map_removed (ls : List Listener) (ep : Endpoint)
    (old : Props) :
    updatedCalls (ls.map fun l => LogEntry.removedCall l.lid ep (some old)) = [] := by
  induction ls <;> simp [*]

/-!
Characterizations of the export loop.
-/

theorem exportLoop_listeners (ref : SvcRef) (name : String) :
    ∀ (es : List Exporter) (st : DState),
      (exportLoop ref name es st).1.listeners = st.listeners := by
  intro es
  induction es with
  | nil => intro st; rfl
  | cons e rest ih =>
    intro st
    cases h : e.export_service ref.sid name <;> simp [exportLoop, h, ih]

theorem exportLoop_createdEps (ref : SvcRef) (name : String) :
    ∀ (es : List Exporter) (st : DState),
      createdEps (exportLoop ref name es st).2.2 = (exportLoop ref name es st).2.1 := by
  intro es
  induction es with
  | nil => intro st; rfl
  | cons e rest ih =>
    intro st
    cases h : e.export_service ref.sid name <;> simp [exportLoop, h, ih]

theorem exportLoop_addedCalls (ref : SvcRef) (name : String) :
    ∀ (es : List Exporter) (st : DState),
      addedCalls (exportLoop ref name es st).2.2 = [] := by
  intro es
  induction es with
  | nil => intro st; rfl
  | cons e rest ih =>
    intro st
    cases h : e.export_service ref.sid name <;> simp [exportLoop, h, ih]

theorem exportLoop_exportCalls (ref : SvcRef) (name : String) :
    ∀ (es : List Exporter) (st : DState),
      exportCalls (exportLoop ref name es st).2.2 = es.map Exporter.eid := by
  intro es
  induction es with
  | nil => intro st; rfl
  | cons e rest ih =>
    intro st
    cases h : e.export_service ref.sid name <;> simp [exportLoop, h, ih]

theorem exportLoop_no_endpoint_state (ref : SvcRef) (name : String) :
    ∀ (es : List Exporter) (st : DState),
      (exportLoop ref name es st).2.1 = [] → (exportLoop ref name es st).1 = st := by
  intro es
  induction es with
  | nil => intro st _; rfl
  | cons e rest ih =>
    intro st hnil
    cases h : e.export_service ref.sid name with
    | declined => simpa [exportLoop, h] using ih st (by simpa [exportLoop, h] using hnil)
    | raised => simpa [exportLoop, h] using ih st (by simpa [exportLoop, h] using hnil)
    | created ep => simp [exportLoop, h] at hnil

theorem exportLoop_updatedCalls (ref : SvcRef) (name : String) :
    ∀ (es : List Exporter) (st : DState),
      updatedCalls (exportLoop ref name es st).2.2 = [] := by
  intro es
  induction es with
  | nil => intro st; rfl
  | cons e rest ih =>
    intro st
    cases h : e.export_service ref.sid name <;> simp [exportLoop, h, ih]

theorem exportLoop_removedCalls (ref : SvcRef) (name : String) :
    ∀ (es : List Exporter) (st : DState),
      removedCalls (exportLoop ref name es st).2.2 = [] := by
  intro es
  induction es with
  | nil => intro st; rfl
  | cons e rest ih =>
    intro st
    cases h : e.export_service ref.sid name <;> simp [exportLoop, h, ih]

/-- Reduction of export_service once both exporter guards have passed. -/
theorem export_service_eq (st : DState) (ref : SvcRef)
    (h1 : st.exporters.isEmpty = false)
    (h2 : (select_exporters st.exporters
      (ref.get_property PROP_EXPORTED_CONFIGS)).isEmpty = false)
    (r : DState × List Endpoint × List LogEntry)
    (hr : r = exportLoop ref (compute_endpoint_name ref.get_properties)
      (select_exporters st.exporters (ref.get_property PROP_EXPORTED_CONFIGS))
      { st with service_uids := alsetdefault st.service_uids ref.sid [] }) :
    export_service st ref =
      if r.2.1.isEmpty then ⟨r.1, r.2.2 ++ [.warn "No endpoint created"], none⟩
      else
        ⟨r.1, r.2.2 ++ (notifyAdded r.1.listeners r.2.1).1,
          (notifyAdded r.1.listeners r.2.1).2⟩ := by
  subst hr
  simp [export_service, h1, h2]

/-- C1: in an export pass, zero created endpoints mean no listener
notification at all (in particular the no-exporters case only logs a
warning), and at least one created endpoint means each registered listener
receives exactly one endpoints_added call whose argument is the full list
of endpoints created in the pass. -/
theorem c1_single_endpoints_added_broadcast (st : DState) (ref : SvcRef)
    (hok : ∀ l ∈ st.listeners, l.fails_added = false) :
    (st.exporters = [] →
      (export_service st ref).log = [.warn "No exporters yet."]) ∧
    (createdEps (export_service st ref).log = [] →
      addedCalls (export_service st ref).log = [] ∧
      updatedCalls (export_service st ref).log = [] ∧
      removedCalls (export_service st ref).log = []) ∧
    (createdEps (export_service st ref).log ≠ [] →
      addedCalls (export_service st ref).log =
        st.listeners.map fun l => (l.lid, createdEps (export_service st ref).log)) := by
  by_cases h1 : st.exporters.isEmpty
  · refine ⟨fun _ => ?_, fun _ => ?_, fun hne => ?_⟩
    · simp [export_service, h1]
    · refine ⟨?_, ?_, ?_⟩ <;> simp [export_service, h1]
    · exact absurd (by simp [export_service, h1]) hne
  · have h1' : st.exporters.isEmpty = false := by simpa using h1
    by_cases h2 : (select_exporters st.exporters
        (ref.get_property PROP_EXPORTED_CONFIGS)).isEmpty
    · refine ⟨fun heq => ?_, fun _ => ?_, fun hne => ?_⟩
      · exact absurd (by simp [heq]) h1
      · refine ⟨?_, ?_, ?_⟩ <;> simp [export_service, h1', h2]
      · exact absurd (by simp [export_service, h1', h2]) hne
    · have h2' : (select_exporters st.exporters
        (ref.get_property PROP_EXPORTED_CONFIGS)).isEmpty = false := by simpa using h2
      obtain ⟨r, hr⟩ : ∃ r, r = exportLoop ref (compute_endpoint_name ref.get_properties)
          (select_exporters st.exporters (ref.get_property PROP_EXPORTED_CONFIGS))
          { st with service_uids := alsetdefault st.service_uids ref.sid [] } := ⟨_, rfl⟩
      have her := export_service_eq st ref h1' h2' r hr
      have hlst : r.1.listeners = st.listeners := by
        rw [hr]; exact exportLoop_listeners _ _ _ _
      have hcre : createdEps r.2.2 = r.2.1 := by
        rw [hr]; exact exportLoop_createdEps _ _ _ _
      have hadd : addedCalls r.2.2 = [] := by
        rw [hr]; exact exportLoop_addedCalls _ _ _ _
      have hupd : updatedCalls r.2.2 = [] := by
        rw [hr]; exact exportLoop_updatedCalls _ _ _ _
      have hrem : removedCalls r.2.2 = [] := by
        rw [hr]; exact exportLoop_removedCalls _ _ _ _
      by_cases h3 : r.2.1.isEmpty
      · have hres : export_service st ref =
            ⟨r.1, r.2.2 ++ [.warn "No endpoint created"], none⟩ := by
          rw [her]; simp [h3]
        refine ⟨fun heq => ?_, fun _ => ?_, fun hne => ?_⟩
        · exact absurd (by simp [heq]) h1
        · refine ⟨?_, ?_, ?_⟩ <;> simp [hres, hadd, hupd, hrem]
        · exact absurd (by simp [hres, hcre, List.isEmpty_iff.mp h3]) hne
      · have hnot : notifyAdded r.1.listeners r.2.1 =
            (st.listeners.map fun l => .addedCall l.lid r.2.1, none) := by
          rw [hlst]; exact notifyAdded_ok st.listeners r.2.1 hok
        have hres : export_service st ref =
            ⟨r.1, r.2.2 ++ (st.listeners.map fun l => .addedCall l.lid r.2.1), none⟩ := by
          rw [her]; simp [h3, hnot]
        have hclog : createdEps (export_service st ref).log = r.2.1 := by
          simp [hres, hcre, createdEps_map_added]
        refine ⟨fun heq => ?_, fun hceq => ?_, fun _ => ?_⟩
        · exact absurd (by simp [heq]) h1
        · rw [hclog] at hceq
          exact absurd (List.isEmpty_iff.mpr hceq) (by simpa using h3)
        · rw [hclog]
          simp [hres, hadd, addedCalls_map_added]

/-!
Concrete fixtures for witnesses and counterexamples.
-/

/-- A concrete endpoint produced by the sample exporter. -/
def epA : Endpoint := ⟨"uidA", "svc", ["cfgA"], ["ISpec"], []⟩

/-- A sample exporter that accepts every config and creates epA. -/
def expA : Exporter := ⟨1, fun _ => true, fun _ _ => .created epA, fun _ _ _ => .ok⟩

/-- A well-behaved listener. -/
def lisOk1 : Listener := ⟨1, false, false, false⟩

/-- A second well-behaved listener. -/
def lisOk2 : Listener := ⟨2, false, false, false⟩

/-- A sample service reference with no special properties. -/
def refA : SvcRef := ⟨7, []⟩

/-- State for the C1 witness: one exporter, two healthy listeners. -/
def c1St : DState := ⟨[expA], [lisOk1, lisOk2], some "fw", [], [], []⟩

/-- Witness for C1: a concrete export pass creating one endpoint notifies
both listeners exactly once with that endpoint. -/
theorem c1_witness :
    createdEps (export_service c1St refA).log ≠ [] ∧
    addedCalls (export_service c1St refA).log =
      c1St.listeners.map fun l => (l.lid, createdEps (export_service c1St refA).log) :=
  ⟨by decide, (c1_single_endpoints_added_broadcast c1St refA (by decide)).2.2 (by decide)⟩

theorem exportCalls_notifyAdded (ls : List Listener) (eps : List Endpoint) :
    exportCalls (notifyAdded ls eps).1 = [] := by
  induction ls with
  | nil => rfl
  | cons l rest ih =>
    by_cases h : l.fails_added <;> simp [notifyAdded, h, ih]

/-- With at least one exporter registered, the exporters asked to export
are exactly the selected candidates, each exactly once and in order. -/
theorem exportCalls_export_service (st : DState) (ref : SvcRef)
    (h1 : st.exporters.isEmpty = false) :
    exportCalls (export_service st ref).log =
      (select_exporters st.exporters (ref.get_property PROP_EXPORTED_CONFIGS)).map
        Exporter.eid := by
  by_cases h2 : (select_exporters st.exporters
      (ref.get_property PROP_EXPORTED_CONFIGS)).isEmpty
  · have hsel : select_exporters st.exporters
        (ref.get_property PROP_EXPORTED_CONFIGS) = [] := List.isEmpty_iff.mp h2
    simp [export_service, h1, h2, hsel]
  · have h2' : (select_exporters st.exporters
        (ref.get_property PROP_EXPORTED_CONFIGS)).isEmpty = false := by simpa using h2
    obtain ⟨r, hr⟩ : ∃ r, r = exportLoop ref (compute_endpoint_name ref.get_properties)
        (select_exporters st.exporters (ref.get_property PROP_EXPORTED_CONFIGS))
        { st with service_uids := alsetdefault st.service_uids ref.sid [] } := ⟨_, rfl⟩
    have her := export_service_eq st ref h1 h2' r hr
    have hexp : exportCalls r.2.2 = (select_exporters st.exporters
        (ref.get_property PROP_EXPORTED_CONFIGS)).map Exporter.eid := by
      rw [hr]; exact exportLoop_exportCalls _ _ _ _
    by_cases h3 : r.2.1.isEmpty
    · rw [her]; simp [h3, hexp]
    · rw [her]; simp [h3, hexp, exportCalls_notifyAdded]

/-- Exporter for the C8 counterexample: it handles no configuration. -/
def expNoMatch : Exporter := ⟨5, fun _ => false, fun _ _ => .declined, fun _ _ _ => .ok⟩

/-- State for the C8 counterexample. -/
def c8CSt : DState := ⟨[expNoMatch], [], some "fw", [], [], []⟩

/-- Service for the C8 counterexample: exported.configs is the empty
string, a present value that is neither absent nor the star. -/
def c8CRef : SvcRef := ⟨9, [(PROP_EXPORTED_CONFIGS, .vstr "")]⟩

/-- C8 counterexample: with exported.configs present and equal to the empty
string, the claim predicts that only exporters whose handles call answers
true are asked, hence none here; the code instead treats the falsy value
like an absent one and asks every registered exporter. -/
theorem c8_counterexample :
    c8CRef.get_property PROP_EXPORTED_CONFIGS = some (Value.vstr "") ∧
    exportCalls (export_service c8CSt c8CRef).log = [5] ∧
    ¬ exportCalls (export_service c8CSt c8CRef).log =
        (c8CSt.exporters.filter fun e => e.handles (Value.vstr "")).map Exporter.eid := by
  refine ⟨by decide, by decide, by decide⟩

/-- C8 amended: with at least one exporter registered, a truthy
exported.configs value other than the star selects exactly the exporters
whose handles call answers true; an absent, falsy, or star value selects
every registered exporter.  Every selected exporter is asked exactly once. -/
theorem c8_amended_exporter_selection (st : DState) (ref : SvcRef)
    (hne : st.exporters ≠ []) :
    (∀ v, ref.get_property PROP_EXPORTED_CONFIGS = some v → truthy v = true →
      v ≠ Value.vstr "*" →
      exportCalls (export_service st ref).log =
        (st.exporters.filter fun e => e.handles v).map Exporter.eid) ∧
    (ref.get_property PROP_EXPORTED_CONFIGS = none →
      exportCalls (export_service st ref).log = st.exporters.map Exporter.eid) ∧
    (∀ v, ref.get_property PROP_EXPORTED_CONFIGS = some v →
      (truthy v = false ∨ v = Value.vstr "*") →
      exportCalls (export_service st ref).log = st.exporters.map Exporter.eid) := by
  have h1 : st.exporters.isEmpty = false := by
    simpa [List.isEmpty_iff] using hne
  have hmain := exportCalls_export_service st ref h1
  refine ⟨fun v hv ht hs => ?_, fun hv => ?_, fun v hv hc => ?_⟩
  · rw [hmain, hv]
    simp [select_exporters, ht, hs]
  · rw [hmain, hv]
    simp [select_exporters]
  · rw [hmain, hv]
    simp only [select_exporters]
    rw [if_pos hc]

/-- Endpoint produced by the matching exporter of the C8 witness. -/
def epB : Endpoint := ⟨"uidB", "svcB", ["cfgB"], ["ISpecB"], []⟩

/-- Matching exporter of the C8 witness scenario. -/
def expB : Exporter :=
  ⟨2, fun v => v = Value.vstr "cfgB", fun _ _ => .created epB, fun _ _ _ => .ok⟩

/-- Non-matching exporter of the C8 witness scenario. -/
def expC : Exporter := ⟨3, fun _ => false, fun _ _ => .declined, fun _ _ _ => .ok⟩

/-- State for the C8 witness: two exporters, one matching the config. -/
def c8WSt : DState := ⟨[expB, expC], [], some "fw", [], [], []⟩

/-- Service for the C8 witness, requesting configuration cfgB. -/
def c8WRef : SvcRef := ⟨8, [(PROP_EXPORTED_CONFIGS, .vstr "cfgB")]⟩

/-- Witness for the amended C8, scenario B of the spec: of two exporters
only the one handling the requested config is asked, and one endpoint
results. -/
theorem c8_witness :
    exportCalls (export_service c8WSt c8WRef).log =
      (c8WSt.exporters.filter fun e => e.handles (Value.vstr "cfgB")).map Exporter.eid ∧
    exportCalls (export_service c8WSt c8WRef).log = [2] ∧
    createdEps (export_service c8WSt c8WRef).log = [epB] :=
  ⟨(c8_amended_exporter_selection c8WSt c8WRef (by simp [c8WSt])).1 (Value.vstr "cfgB")
      (by decide) (by decide) (by decide),
    by decide, by decide⟩

/-- C2: for a UID whose exporter and endpoint are both on record, a
NameError from update_export makes the dispatcher unexport the endpoint
through that exporter and broadcast exactly one endpoint_removed call per
listener carrying the previous properties, with no endpoint_updated call;
a successful update_export broadcasts exactly one endpoint_updated call
per listener and no endpoint_removed call.  updateOne is the body
update_service applies to every UID of the record through updateLoop; the
last conjunct ties it back to update_service for a one-UID record. -/
theorem c2_update_failure_vs_success (st : DState) (ref : SvcRef) (old : Props)
    (uid : String) (ex : Exporter) (ep : Endpoint)
    (hx : alget st.uid_exporter uid = some ex)
    (he : alget st.endpoints uid = some ep)
    (hl : ∀ l ∈ st.listeners, l.fails_updated = false ∧ l.fails_removed = false) :
    (ex.update_export ep (compute_endpoint_name ref.get_properties) old = .nameError →
      LogEntry.unexportCall ex.eid uid ∈ (updateOne ref old uid st).log ∧
      removedCalls (updateOne ref old uid st).log =
        st.listeners.map (fun l => (l.lid, ep, some old)) ∧
      updatedCalls (updateOne ref old uid st).log = [] ∧
      (updateOne ref old uid st).err = none) ∧
    (ex.update_export ep (compute_endpoint_name ref.get_properties) old = .ok →
      updatedCalls (updateOne ref old uid st).log =
        st.listeners.map (fun l => (l.lid, ep, old)) ∧
      removedCalls (updateOne ref old uid st).log = [] ∧
      (updateOne ref old uid st).err = none) ∧
    (alget st.service_uids ref.sid = some [uid] →
      update_service st ref old = updateOne ref old uid st) := by
  have hrm := notifyRemovedUpd_ok st.listeners ep old fun l h => (hl l h).2
  have hup := notifyUpdated_ok st.listeners ep old fun l h => (hl l h).1
  refine ⟨fun hfail => ?_, fun hok => ?_, fun hrec => ?_⟩
  · refine ⟨?_, ?_, ?_, ?_⟩ <;>
      simp [updateOne, hx, he, hfail, hrm, removedCalls_map_removed,
        updatedCalls_map_removed]
  · refine ⟨?_, ?_, ?_⟩ <;>
      simp [updateOne, hx, he, hok, hup, updatedCalls_map_updated,
        removedCalls_map_updated]
  · cases hres : (updateOne ref old uid st).err with
    | none =>
      have : updateOne ref old uid st = ⟨(updateOne ref old uid st).st,
          (updateOne ref old uid st).log, none⟩ := by rw [← hres]
      simp [update_service, hrec, updateLoop, hres]
      rw [this]
    | some e =>
      have : updateOne ref old uid st = ⟨(updateOne ref old uid st).st,
          (updateOne ref old uid st).log, some e⟩ := by rw [← hres]
      simp [update_service, hrec, updateLoop, hres]
      rw [this]

/-- Endpoint on record for the C2 witness. -/
def epU : Endpoint := ⟨"uidU", "svcU", ["cfgU"], ["ISpecU"], []⟩

/-- Exporter whose update_export always raises NameError. -/
def expFailUpd : Exporter := ⟨4, fun _ => true, fun _ _ => .declined, fun _ _ _ => .nameError⟩

/-- State for the C2 witness: one exported endpoint, two healthy listeners. -/
def c2St : DState :=
  ⟨[], [lisOk1, lisOk2], some "fw", [("uidU", epU)], [("uidU", expFailUpd)],
    [(11, ["uidU"])]⟩

/-- Service reference for the C2 witness. -/
def c2Ref : SvcRef := ⟨11, []⟩

/-- Witness for C2, the failing-update branch: the endpoint is unexported
through its exporter, each listener gets one endpoint_removed call with
the previous properties, and no endpoint_updated call occurs. -/
theorem c2_witness :
    LogEntry.unexportCall 4 "uidU" ∈ (updateOne c2Ref [] "uidU" c2St).log ∧
    removedCalls (updateOne c2Ref [] "uidU" c2St).log =
      c2St.listeners.map (fun l => (l.lid, epU, some ([] : Props))) ∧
    updatedCalls (updateOne c2Ref [] "uidU" c2St).log = [] ∧
    (updateOne c2Ref [] "uidU" c2St).err = none :=
  (c2_update_failure_vs_success c2St c2Ref [] "uidU" expFailUpd epU rfl rfl
    (by decide)).1 rfl

/-- Endpoint of the healthy second UID in the C6 failing input. -/
def epV : Endpoint := ⟨"u2", "svcV", ["cfgV"], ["ISpecV"], []⟩

/-- Exporter of the healthy second UID in the C6 failing input. -/
def expOkUpd : Exporter := ⟨6, fun _ => true, fun _ _ => .declined, fun _ _ _ => .ok⟩

/-- C6 failing input: the record of service 7 lists u1 and u2, but u1 has
no entry in the endpoint and exporter maps; u2 is fully present. -/
def c6St : DState :=
  ⟨[], [lisOk1], some "fw", [("u2", epV)], [("u2", expOkUpd)], [(7, ["u1", "u2"])]⟩

/-- Service reference of the C6 failing input. -/
def c6Ref : SvcRef := ⟨7, []⟩

/-- C6: evaluation of the code at the failing input.  Python sets have no
retain method, so the repair line raises AttributeError after the warning:
the stale UID u1 stays in the record, the healthy UID u2 is never
processed (no update_export call, no notification), and the exception
escapes update_service — contradicting the self-healing behaviour the
claim and the code comment describe. -/
theorem c6_retain_attribute_error :
    (update_service c6St c6Ref []).err = some PyErr.attrError ∧
    (update_service c6St c6Ref []).log = [.warn "No exporter for endpoint u1"] ∧
    alget (update_service c6St c6Ref []).st.service_uids 7 = some ["u1", "u2"] ∧
    removedCalls (update_service c6St c6Ref []).log = [] ∧
    updatedCalls (update_service c6St c6Ref []).log = [] := by
  refine ⟨by decide, by decide, by decide, by decide, by decide⟩

/-!
Lemmas about unexport_service for C4 and C5.
-/

theorem unexportOne_service_uids (uid : String) (st : DState) :
    (unexportOne uid st).1.service_uids = st.service_uids := by
  cases h : alget st.endpoints uid with
  | none => simp [unexportOne, h]
  | some ep =>
    cases h2 : alget st.uid_exporter uid with
    | none => simp [unexportOne, h, h2]
    | some ex => simp [unexportOne, h, h2]

theorem unexportOne_listeners (uid : String) (st : DState) :
    (unexportOne uid st).1.listeners = st.listeners := by
  cases h : alget st.endpoints uid with
  | none => simp [unexportOne, h]
  | some ep =>
    cases h2 : alget st.uid_exporter uid with
    | none => simp [unexportOne, h, h2]
    | some ex => simp [unexportOne, h, h2]

theorem unexportOne_endpoints_self (uid : String) (st : DState) :
    alget (unexportOne uid st).1.endpoints uid = none := by
  cases h : alget st.endpoints uid with
  | none => simp [unexportOne, h]
  | some ep =>
    cases h2 : alget st.uid_exporter uid with
    | none => simp [unexportOne, h, h2, alget_aldel_self]
    | some ex => simp [unexportOne, h, h2, alget_aldel_self]

theorem unexportOne_endpoints_mono (uid u : String) (st : DState)
    (h : alget st.endpoints u = none) :
    alget (unexportOne uid st).1.endpoints u = none := by
  by_cases hu : u = uid
  · subst hu
    exact unexportOne_endpoints_self u st
  · cases h1 : alget st.endpoints uid with
    | none => simpa [unexportOne, h1] using h
    | some ep =>
      cases h2 : alget st.uid_exporter uid with
      | none => simp [unexportOne, h1, h2, alget_aldel_ne _ _ _ hu, h]
      | some ex => simp [unexportOne, h1, h2, alget_aldel_ne _ _ _ hu, h]

theorem unexportLoop_service_uids :
    ∀ (uids : List String) (st : DState),
      (unexportLoop uids st).1.service_uids = st.service_uids := by
  intro uids
  induction uids with
  | nil => intro st; rfl
  | cons uid rest ih =>
    intro st
    simp [unexportLoop, ih, unexportOne_service_uids]

theorem unexportLoop_listeners :
    ∀ (uids : List String) (st : DState),
      (unexportLoop uids st).1.listeners = st.listeners := by
  intro uids
  induction uids with
  | nil => intro st; rfl
  | cons uid rest ih =>
    intro st
    simp [unexportLoop, ih, unexportOne_listeners]

theorem unexportLoop_endpoints_mono :
    ∀ (uids : List String) (u : String) (st : DState),
      alget st.endpoints u = none →
      alget (unexportLoop uids st).1.endpoints u = none := by
  intro uids
  induction uids with
  | nil => intro u st h; exact h
  | cons uid rest ih =>
    intro u st h
    simpa [unexportLoop] using ih u _ (unexportOne_endpoints_mono uid u st h)

theorem unexportLoop_endpoints_none :
    ∀ (uids : List String) (u : String) (st : DState), u ∈ uids →
      alget (unexportLoop uids st).1.endpoints u = none := by
  intro uids
  induction uids with
  | nil => intro u st hu; cases hu
  | cons uid rest ih =>
    intro u st hu
    rcases List.mem_cons.mp hu with h | h
    · subst h
      simpa [unexportLoop] using
        unexportLoop_endpoints_mono rest u _ (unexportOne_endpoints_self u st)
    · simpa [unexportLoop] using ih u _ h

/-- After any unexport_service call, the service has no record. -/
theorem unexport_service_record_gone (st : DState) (ref : SvcRef) :
    alget (unexport_service st ref).st.service_uids ref.sid = none := by
  cases h : alget st.service_uids ref.sid with
  | none => simp [unexport_service, h]
  | some uids =>
    simp [unexport_service, h, unexportLoop_service_uids, alget_aldel_self]

/-- unexport_service on a service with no record is a strict no-op. -/
theorem unexport_service_norecord (st : DState) (ref : SvcRef)
    (h : alget st.service_uids ref.sid = none) :
    unexport_service st ref = ⟨st, [], none⟩ := by
  simp [unexport_service, h]

/-- update_service on a service with no record is a strict no-op. -/
theorem update_service_norecord (st : DState) (ref : SvcRef) (old : Props)
    (h : alget st.service_uids ref.sid = none) :
    update_service st ref old = ⟨st, [], none⟩ := by
  simp [update_service, h]

/-- C4: the first unexport pops the whole UID set of the service and
removes every listed endpoint from the endpoint map; a second unexport,
and any unexport or update of a service with no record, is a no-op that
keeps the state, emits nothing and raises nothing. -/
theorem c4_idempotent_unexport (st : DState) (ref : SvcRef) (old : Props) :
    (∀ uids, alget st.service_uids ref.sid = some uids →
      alget (unexport_service st ref).st.service_uids ref.sid = none ∧
      ∀ uid ∈ uids, alget (unexport_service st ref).st.endpoints uid = none) ∧
    (alget st.service_uids ref.sid = none →
      unexport_service st ref = ⟨st, [], none⟩ ∧
      update_service st ref old = ⟨st, [], none⟩) ∧
    unexport_service (unexport_service st ref).st ref =
      ⟨(unexport_service st ref).st, [], none⟩ := by
  refine ⟨fun uids hrec => ⟨unexport_service_record_gone st ref, fun uid hu => ?_⟩,
    fun h => ⟨unexport_service_norecord st ref h, update_service_norecord st ref old h⟩,
    unexport_service_norecord _ ref (unexport_service_record_gone st ref)⟩
  simp [unexport_service, hrec]
  exact unexportLoop_endpoints_none uids uid _ hu

/-- State for the C4 witness: one exported endpoint on record. -/
def c4St : DState :=
  ⟨[], [lisOk1], some "fw", [("uidU", epU)], [("uidU", expOkUpd)], [(13, ["uidU"])]⟩

/-- Service reference for the C4 witness. -/
def c4Ref : SvcRef := ⟨13, []⟩

/-- Witness for C4: after a concrete unexport the record and the endpoint
are gone and the second unexport is a strict no-op. -/
theorem c4_witness :
    alget (unexport_service c4St c4Ref).st.service_uids 13 = none ∧
    alget (unexport_service c4St c4Ref).st.endpoints "uidU" = none ∧
    unexport_service (unexport_service c4St c4Ref).st c4Ref =
      ⟨(unexport_service c4St c4Ref).st, [], none⟩ :=
  ⟨((c4_idempotent_unexport c4St c4Ref []).1 ["uidU"] rfl).1,
    ((c4_idempotent_unexport c4St c4Ref []).1 ["uidU"] rfl).2 "uidU" (by decide),
    (c4_idempotent_unexport c4St c4Ref []).2.2⟩

/-- A listener whose endpoints_added callback raises. -/
def lisFailAdd : Listener := ⟨1, true, false, false⟩

/-- State for the C5 counterexample: the first listener raises on
endpoints_added, the second is healthy. -/
def c5St : DState := ⟨[expA], [lisFailAdd, lisOk2], some "fw", [], [], []⟩

/-- Service reference for the C5 counterexample. -/
def c5Ref : SvcRef := ⟨15, []⟩

/-- C5 counterexample: in the export broadcast a listener exception is not
caught — it escapes export_service and the remaining listener never
receives the endpoints_added call, so the claimed per-listener isolation
fails for that broadcast. -/
theorem c5_counterexample :
    (export_service c5St c5Ref).err = some (PyErr.listenerExc 1) ∧
    addedCalls (export_service c5St c5Ref).log = [(1, [epA])] ∧
    ¬ ((export_service c5St c5Ref).err = none ∧
      (2, [epA]) ∈ addedCalls (export_service c5St c5Ref).log) := by
  refine ⟨by decide, by decide, by decide⟩

/-- C5 amended: listener failures are isolated only in the
endpoint_removed broadcast of unexport (and the bind-time delivery): there
every listener is still invoked exactly once, each raising listener is
caught and logged, and the operation completes without an exception. -/
theorem c5_amended_isolation_unexport_only (st : DState) (ref : SvcRef)
    (uid : String) (ep : Endpoint) (ex : Exporter)
    (hrec : alget st.service_uids ref.sid = some [uid])
    (he : alget st.endpoints uid = some ep)
    (hx : alget st.uid_exporter uid = some ex) :
    (unexport_service st ref).err = none ∧
    removedCalls (unexport_service st ref).log =
      st.listeners.map (fun l => (l.lid, ep, (none : Option Props))) ∧
    (∀ l ∈ st.listeners, l.fails_removed = true →
      LogEntry.errlog "Error notifying listener" ∈ (unexport_service st ref).log) := by
  have hlog : (unexport_service st ref).log =
      .unexportCall ex.eid uid :: notifyRemovedSafe st.listeners ep := by
    simp [unexport_service, hrec, unexportLoop, unexportOne, he, hx]
  have herr : (unexport_service st ref).err = none := by
    simp [unexport_service, hrec]
  refine ⟨herr, ?_, fun l hl hf => ?_⟩
  · simp [hlog, removedCalls_notifyRemovedSafe]
  · rw [hlog]
    exact List.mem_cons_of_mem _ (errlog_notifyRemovedSafe st.listeners ep l hl hf)

/-- A listener whose endpoint_removed callback raises. -/
def lisFailRem : Listener := ⟨1, false, false, true⟩

/-- State for the C5 witness: a raising and a healthy listener, one
exported endpoint on record. -/
def c5WSt : DState :=
  ⟨[], [lisFailRem, lisOk2], some "fw", [("uidU", epU)], [("uidU", expOkUpd)],
    [(16, ["uidU"])]⟩

/-- Service reference for the C5 witness. -/
def c5WRef : SvcRef := ⟨16, []⟩

/-- Witness for the amended C5: the unexport broadcast reaches both
listeners, logs the failure of the raising one, and raises nothing. -/
theorem c5_witness :
    (unexport_service c5WSt c5WRef).err = none ∧
    removedCalls (unexport_service c5WSt c5WRef).log =
      c5WSt.listeners.map (fun l => (l.lid, epU, (none : Option Props))) ∧
    (∀ l ∈ c5WSt.listeners, l.fails_removed = true →
      LogEntry.errlog "Error notifying listener" ∈ (unexport_service c5WSt c5WRef).log) :=
  c5_amended_isolation_unexport_only c5WSt c5WRef "uidU" epU expOkUpd rfl rfl rfl

/-- C9: a listener bound while endpoints exist immediately receives exactly
one endpoints_added call carrying all current endpoints; bound on an empty
index it receives nothing; a failure it raises during that delivery is
caught and logged. -/
theorem c9_bound_listener_snapshot (st : DState) (l : Listener) :
    (st.endpoints = [] → (bind_listener st l).2 = []) ∧
    (st.endpoints ≠ [] →
      addedCalls (bind_listener st l).2 = [(l.lid, st.endpoints.map Prod.snd)] ∧
      (l.fails_added = true →
        LogEntry.errlog "Error notifying newly bound listener" ∈ (bind_listener st l).2)) := by
  constructor
  · intro h
    simp [bind_listener, h]
  · intro h
    have hne : st.endpoints.isEmpty = false := by simpa [List.isEmpty_iff] using h
    by_cases hf : l.fails_added
    · exact ⟨by simp [bind_listener, hne, hf], fun _ => by simp [bind_listener, hne, hf]⟩
    · exact ⟨by simp [bind_listener, hne, hf], fun hcon => absurd hcon (by simp [hf])⟩

/-- State for the C9 witness: two endpoints already indexed. -/
def c9St : DState := ⟨[], [], some "fw", [("uidU", epU), ("uidB", epB)], [], []⟩

/-- The late-joining listener of the C9 witness. -/
def lisNew : Listener := ⟨9, false, false, false⟩

/-- Witness for C9: the newly bound listener gets exactly one
endpoints_added call with both current endpoints. -/
theorem c9_witness :
    addedCalls (bind_listener c9St lisNew).2 = [(9, [epU, epB])] :=
  ((c9_bound_listener_snapshot c9St lisNew).2 (by decide)).1

theorem createdEps_notifyAdded (ls : List Listener) (eps : List Endpoint) :
    createdEps (notifyAdded ls eps).1 = [] := by
  induction ls with
  | nil => rfl
  | cons l rest ih =>
    by_cases h : l.fails_added <;> simp [notifyAdded, h, ih]

theorem exportLoop_service_uids_isSome (ref : SvcRef) (name : String) :
    ∀ (es : List Exporter) (st : DState),
      (alget st.service_uids ref.sid).isSome = true →
      (alget (exportLoop ref name es st).1.service_uids ref.sid).isSome = true := by
  intro es
  induction es with
  | nil => intro st h; exact h
  | cons e rest ih =>
    intro st h
    cases hc : e.export_service ref.sid name with
    | declined => simpa [exportLoop, hc] using ih st h
    | raised => simpa [exportLoop, hc] using ih st h
    | created ep =>
      simp only [exportLoop, hc]
      exact ih _ (by simp [alget_alset_self])

/-- After any export_service call the service reference is a key of the
record map. -/
theorem export_service_record_some (st : DState) (ref : SvcRef) :
    (alget (export_service st ref).st.service_uids ref.sid).isSome = true := by
  by_cases h1 : st.exporters.isEmpty
  · simp [export_service, h1, alget_alsetdefault_isSome]
  · have h1' : st.exporters.isEmpty = false := by simpa using h1
    by_cases h2 : (select_exporters st.exporters
        (ref.get_property PROP_EXPORTED_CONFIGS)).isEmpty
    · simp [export_service, h1', h2, alget_alsetdefault_isSome]
    · have h2' : (select_exporters st.exporters
          (ref.get_property PROP_EXPORTED_CONFIGS)).isEmpty = false := by simpa using h2
      obtain ⟨r, hr⟩ : ∃ r, r = exportLoop ref (compute_endpoint_name ref.get_properties)
          (select_exporters st.exporters (ref.get_property PROP_EXPORTED_CONFIGS))
          { st with service_uids := alsetdefault st.service_uids ref.sid [] } := ⟨_, rfl⟩
      have her := export_service_eq st ref h1' h2' r hr
      have hloop : (alget r.1.service_uids ref.sid).isSome = true := by
        rw [hr]
        exact exportLoop_service_uids_isSome ref _ _ _ (by simp [alget_alsetdefault_isSome])
      by_cases h3 : r.2.1.isEmpty <;> rw [her] <;> simp [h3, hloop]

/-- After an export pass that created no endpoint for a previously
unrecorded service, the record is the empty UID set. -/
theorem export_service_record_empty (st : DState) (ref : SvcRef)
    (hfresh : alget st.service_uids ref.sid = none)
    (hnil : createdEps (export_service st ref).log = []) :
    alget (export_service st ref).st.service_uids ref.sid = some [] := by
  by_cases h1 : st.exporters.isEmpty
  · simp [export_service, h1, alget_alsetdefault_fresh _ _ _ hfresh]
  · have h1' : st.exporters.isEmpty = false := by simpa using h1
    by_cases h2 : (select_exporters st.exporters
        (ref.get_property PROP_EXPORTED_CONFIGS)).isEmpty
    · simp [export_service, h1', h2, alget_alsetdefault_fresh _ _ _ hfresh]
    · have h2' : (select_exporters st.exporters
          (ref.get_property PROP_EXPORTED_CONFIGS)).isEmpty = false := by simpa using h2
      obtain ⟨r, hr⟩ : ∃ r, r = exportLoop ref (compute_endpoint_name ref.get_properties)
          (select_exporters st.exporters (ref.get_property PROP_EXPORTED_CONFIGS))
          { st with service_uids := alsetdefault st.service_uids ref.sid [] } := ⟨_, rfl⟩
      have her := export_service_eq st ref h1' h2' r hr
      have hcre : createdEps r.2.2 = r.2.1 := by
        rw [hr]; exact exportLoop_createdEps _ _ _ _
      by_cases h3 : r.2.1.isEmpty
      · have hstate : r.1 = { st with
            service_uids := alsetdefault st.service_uids ref.sid [] } := by
          rw [hr]
          exact exportLoop_no_endpoint_state _ _ _ _ (by rw [← hr]; exact List.isEmpty_iff.mp h3)
        rw [her]
        simp [h3, hstate, alget_alsetdefault_fresh _ _ _ hfresh]
      · have hclog : createdEps (export_service st ref).log = r.2.1 := by
          rw [her]
          simp [h3, hcre, createdEps_notifyAdded]
        rw [hclog] at hnil
        exact absurd (List.isEmpty_iff.mpr hnil) (by simpa using h3)

/-- C10: export_service always records the service reference as a key of
the record map, and when the pass of a previously unrecorded service
created zero endpoints the record is the empty UID set, so a later
MODIFIED event dispatches to the update path, which is then a strict
no-op. -/
theorem c10_record_even_without_endpoints (st : DState) (ref : SvcRef)
    (old : Props) (hfresh : alget st.service_uids ref.sid = none) :
    (alget (export_service st ref).st.service_uids ref.sid).isSome = true ∧
    (createdEps (export_service st ref).log = [] →
      alget (export_service st ref).st.service_uids ref.sid = some [] ∧
      service_changed (export_service st ref).st .modified ref old =
        update_service (export_service st ref).st ref old ∧
      update_service (export_service st ref).st ref old =
        ⟨(export_service st ref).st, [], none⟩) := by
  refine ⟨export_service_record_some st ref, fun hnil => ?_⟩
  have hsome := export_service_record_empty st ref hfresh hnil
  refine ⟨hsome, ?_, ?_⟩
  · simp [service_changed, hsome]
  · simp [update_service, hsome, updateLoop]

/-- State for the C10 witness: no exporter registered at all. -/
def c10St : DState := ⟨[], [lisOk1], some "fw", [], [], []⟩

/-- Service reference for the C10 witness. -/
def c10Ref : SvcRef := ⟨3, []⟩

/-- Witness for C10: after an export with no exporters, the service has an
empty record and a MODIFIED-driven update is a strict no-op. -/
theorem c10_witness :
    alget (export_service c10St c10Ref).st.service_uids 3 = some [] ∧
    update_service (export_service c10St c10Ref).st c10Ref [] =
      ⟨(export_service c10St c10Ref).st, [], none⟩ :=
  ⟨((c10_record_even_without_endpoints c10St c10Ref [] rfl).2 (by decide)).1,
    ((c10_record_even_without_endpoints c10St c10Ref [] rfl).2 (by decide)).2.2⟩

/-- Postconditions of the export-to-import property transform. -/
theorem filter_properties_spec (fw : String) (props : Props) :
    alget (filter_properties fw props) PROP_IMPORTED = some (.vbool true) ∧
    alget (filter_properties fw props) PROP_EXPORTED_CONFIGS = none ∧
    alget (filter_properties fw props) PROP_EXPORTED_INTERFACES = none ∧
    alget (filter_properties fw props) PROP_FRAMEWORK_UID = some (.vstr fw) ∧
    (∀ v, alget props PROP_EXPORTED_CONFIGS = some v →
      alget (filter_properties fw props) PROP_IMPORTED_CONFIGS = some v) := by
  have hEC1 : alget (alset props PROP_IMPORTED (Value.vbool true)) PROP_EXPORTED_CONFIGS
      = alget props PROP_EXPORTED_CONFIGS := alget_alset_ne _ _ _ _ (by decide)
  simp only [filter_properties]
  cases hec : alget (alset props PROP_IMPORTED (Value.vbool true)) PROP_EXPORTED_CONFIGS with
  | none =>
    refine ⟨?_, ?_, ?_, ?_, fun v hv => ?_⟩
    · rw [alget_alset_ne _ _ _ _ (by decide), alget_aldel_ne _ _ _ (by decide),
        alget_aldel_ne _ _ _ (by decide), alget_alset_self]
    · rw [alget_alset_ne _ _ _ _ (by decide), alget_aldel_ne _ _ _ (by decide),
        alget_aldel_self]
    · rw [alget_alset_ne _ _ _ _ (by decide), alget_aldel_self]
    · rw [alget_alset_self]
    · rw [hEC1, hv] at hec
      cases hec
  | some w =>
    refine ⟨?_, ?_, ?_, ?_, fun v hv => ?_⟩
    · rw [alget_alset_ne _ _ _ _ (by decide), alget_aldel_ne _ _ _ (by decide),
        alget_aldel_ne _ _ _ (by decide), alget_alset_ne _ _ _ _ (by decide),
        alget_alset_self]
    · rw [alget_alset_ne _ _ _ _ (by decide), alget_aldel_ne _ _ _ (by decide),
        alget_aldel_self]
    · rw [alget_alset_ne _ _ _ _ (by decide), alget_aldel_self]
    · rw [alget_alset_self]
    · have hw : w = v := by
        rw [hEC1, hv] at hec
        exact (Option.some.inj hec).symm
      subst hw
      rw [alget_alset_ne _ _ _ _ (by decide), alget_aldel_ne _ _ _ (by decide),
        alget_aldel_ne _ _ _ (by decide), alget_alset_self]

/-- C3: the ingest transform sets imported to true, copies a present
exported.configs value to imported.configs, deletes the exported.configs
and exported.interfaces keys, and stamps framework.uid with the sender;
consequently register_endpoint adds to the registry exactly one
ImportEndpoint whose framework and framework.uid property are the sender,
whose server is the requesting host, and whose properties carry the
transform result. -/
theorem c3_wire_transform_roundtrip (fw host : String) (props : Props)
    (reg : List ImportEndpoint) (d : EndpointDict) :
    alget (filter_properties fw props) PROP_IMPORTED = some (.vbool true) ∧
    (∀ v, alget props PROP_EXPORTED_CONFIGS = some v →
      alget (filter_properties fw props) PROP_IMPORTED_CONFIGS = some v) ∧
    alget (filter_properties fw props) PROP_EXPORTED_CONFIGS = none ∧
    alget (filter_properties fw props) PROP_EXPORTED_INTERFACES = none ∧
    alget (filter_properties fw props) PROP_FRAMEWORK_UID = some (.vstr fw) ∧
    (∃ ep, register_endpoint reg host d = reg ++ [ep] ∧
      ep.framework = d.sender ∧ ep.server = some host ∧ ep.uid = d.uid ∧
      alget ep.properties PROP_IMPORTED = some (.vbool true) ∧
      alget ep.properties PROP_EXPORTED_CONFIGS = none ∧
      alget ep.properties PROP_EXPORTED_INTERFACES = none ∧
      alget ep.properties PROP_FRAMEWORK_UID = some (.vstr d.sender)) := by
  obtain ⟨h1, h2, h3, h4, h5⟩ := filter_properties_spec fw props
  obtain ⟨g1, g2, g3, g4, g5⟩ := filter_properties_spec d.sender d.properties
  exact ⟨h1, h5, h2, h3, h4,
    ⟨d.uid, d.sender, d.configurations, d.name, d.specifications,
      filter_properties d.sender d.properties, some host⟩,
    rfl, rfl, rfl, rfl, g1, g2, g3, g4⟩

/-- Properties of the C3 witness wire record. -/
def c3Props : Props :=
  [(PROP_EXPORTED_CONFIGS, .vstr "jsonrpc"),
   (PROP_EXPORTED_INTERFACES, .varr ["IFoo"]), ("other", .vint 5)]

/-- The C3 witness wire record. -/
def c3Dict : EndpointDict :=
  ⟨"senderFw", "uidC3", ["jsonrpc"], "svcC3", ["IFoo"], c3Props⟩

/-- Witness for C3: a concrete wire record is transformed and registered
exactly as the claim describes. -/
theorem c3_witness :
    alget (filter_properties "senderFw" c3Props) PROP_IMPORTED = some (.vbool true) ∧
    alget (filter_properties "senderFw" c3Props) PROP_IMPORTED_CONFIGS =
      some (.vstr "jsonrpc") ∧
    alget (filter_properties "senderFw" c3Props) PROP_EXPORTED_CONFIGS = none ∧
    alget (filter_properties "senderFw" c3Props) PROP_EXPORTED_INTERFACES = none ∧
    alget (filter_properties "senderFw" c3Props) PROP_FRAMEWORK_UID =
      some (.vstr "senderFw") ∧
    register_endpoint [] "10.0.0.9" c3Dict =
      [⟨"uidC3", "senderFw", ["jsonrpc"], "svcC3", ["IFoo"],
        filter_properties "senderFw" c3Props, some "10.0.0.9"⟩] :=
  have h := c3_wire_transform_roundtrip "senderFw" "10.0.0.9" c3Props [] c3Dict
  ⟨h.1, h.2.1 (.vstr "jsonrpc") (by decide), h.2.2.1, h.2.2.2.1, h.2.2.2.2.1,
    by decide⟩

/-- C7 counterexample: a POST to the endpoints path with a genuinely empty
body does not answer 200 OK — json.loads raises ValueError and the
exception escapes do_POST, so no response is produced at all. -/
theorem c7_counterexample :
    do_POST [] "10.0.0.1" "/pelix-dispatcher/endpoints" RawBody.empty =
      Except.error PyErr.valueError ∧
    ¬ ∃ res, do_POST [] "10.0.0.1" "/pelix-dispatcher/endpoints" RawBody.empty =
      Except.ok res := by
  have hpath : (pySplit "/pelix-dispatcher/endpoints" '/').getLastD "" = "endpoints" := by
    decide
  have hcond : ¬ ((pySplit "/pelix-dispatcher/endpoints" '/').getLastD "" ≠ "endpoints") :=
    fun hne => hne hpath
  have h : do_POST [] "10.0.0.1" "/pelix-dispatcher/endpoints" RawBody.empty =
      Except.error PyErr.valueError := by
    unfold do_POST
    rw [if_neg hcond]
    rfl
  refine ⟨h, ?_⟩
  rintro ⟨res, hres⟩
  rw [h] at hres
  cases hres

/-- C7 amended: a body that parses to JSON null or to an empty array is a
no-op still answered 200 OK; a genuinely empty or missing body raises
ValueError out of the handler — nothing is registered and no response is
sent by do_POST in that case. -/
theorem c7_amended_empty_body (reg : List ImportEndpoint) (client path : String)
    (hpath : (pySplit path '/').getLastD "" = "endpoints") :
    do_POST reg client path .jnull = .ok (reg, ⟨200, "OK", "text/plain"⟩) ∧
    do_POST reg client path (.jarr []) = .ok (reg, ⟨200, "OK", "text/plain"⟩) ∧
    do_POST reg client path .empty = .error .valueError := by
  have hcond : ¬ ((pySplit path '/').getLastD "" ≠ "endpoints") := fun hne => hne hpath
  refine ⟨?_, ?_, ?_⟩ <;>
    · unfold do_POST
      rw [if_neg hcond]
      simp [json_loads]

/-- Witness for the amended C7: concrete no-op bodies still get 200 OK and
the empty body raises. -/
theorem c7_witness :
    do_POST [] "10.0.0.2" "base/endpoints" (.jarr []) =
      .ok ([], ⟨200, "OK", "text/plain"⟩) ∧
    do_POST [] "10.0.0.2" "base/endpoints" .empty = .error .valueError :=
  ⟨(c7_amended_empty_body [] "10.0.0.2" "base/endpoints" (by decide)).2.1,
    (c7_amended_empty_body [] "10.0.0.2" "base/endpoints" (by decide)).2.2⟩

end PelixRemote
